import Mathlib

/-!
Verification of the data-aggregation and KPI pipeline of the Germany
renewable-generation dashboard (streamlit_app.py / notebooks/app.py).

The dashboard is embedded shallowly:

* a pandas `Timestamp` is its civil tuple (year, month, day, hour, minute),
  ordered lexicographically; a `datetime.date` is the (year, month, day) part;
* a `DataFrame` is a `Frame`: a presence flag per named column plus a list of
  rows, each row holding the timestamp, the derived calendar fields that the
  dashboard adds (`year`, `month`, `date`) and a rational value per column;
* column access `df[c]` is `getCol`, which fails (KeyError) exactly when the
  column is absent — the bare `try/except` around each KPI turns that failure
  into the `N/A` sentinel, modelled by `KpiOutcome.na`;
* scalar results of pandas/numpy arithmetic live in `PFloat`: a finite
  rational, `inf`, `ninf` or `nan`.  numpy does NOT raise on division by
  zero of float scalars: it yields a signed infinity (or `nan` for 0/0),
  which these operations reproduce.
-/

namespace Energy

/-- A pandas timestamp, represented by its civil fields (UTC). -/
structure Timestamp where
  year : ℕ
  month : ℕ
  day : ℕ
  hour : ℕ
  minute : ℕ
deriving DecidableEq

/-- A `datetime.date`: the calendar part of a timestamp. -/
structure Date where
  year : ℕ
  month : ℕ
  day : ℕ
deriving DecidableEq

/-- Chronological (lexicographic) order on timestamps. -/
def Timestamp.le (s t : Timestamp) : Prop :=
  s.year < t.year ∨ (s.year = t.year ∧
    (s.month < t.month ∨ (s.month = t.month ∧
      (s.day < t.day ∨ (s.day = t.day ∧
        (s.hour < t.hour ∨ (s.hour = t.hour ∧ s.minute ≤ t.minute)))))))

instance : DecidableRel Timestamp.le := fun s t => by
  unfold Timestamp.le; exact inferInstance

/-- Calendar (lexicographic) order on dates, as `datetime.date` compares. -/
def Date.le (a b : Date) : Prop :=
  a.year < b.year ∨ (a.year = b.year ∧
    (a.month < b.month ∨ (a.month = b.month ∧ a.day ≤ b.day)))

/-- Strict calendar order on dates. -/
def Date.lt (a b : Date) : Prop :=
  a.year < b.year ∨ (a.year = b.year ∧
    (a.month < b.month ∨ (a.month = b.month ∧ a.day < b.day)))

instance : DecidableRel Date.le := fun a b => by
  unfold Date.le; exact inferInstance

instance : DecidableRel Date.lt := fun a b => by
  unfold Date.lt; exact inferInstance

/-- `.date()` / `.dt.date`: drop the time-of-day component. -/
def dateOf (t : Timestamp) : Date := ⟨t.year, t.month, t.day⟩

theorem Timestamp.le_refl (t : Timestamp) : Timestamp.le t t := by
  unfold Timestamp.le; omega

theorem Timestamp.le_trans {a b c : Timestamp} (h1 : Timestamp.le a b)
    (h2 : Timestamp.le b c) : Timestamp.le a c := by
  unfold Timestamp.le at *; omega

theorem Timestamp.le_total (a b : Timestamp) :
    Timestamp.le a b ∨ Timestamp.le b a := by
  unfold Timestamp.le; omega

theorem dateOf_mono {s t : Timestamp} (h : Timestamp.le s t) :
    Date.le (dateOf s) (dateOf t) := by
  unfold Timestamp.le at h; unfold Date.le dateOf; simp only []; omega

theorem Date.not_between_of_lt {e s d : Date} (h : Date.lt e s) :
    ¬(Date.le s d ∧ Date.le d e) := by
  unfold Date.lt at h; unfold Date.le; omega

/-- The named numeric columns of the CSV that the dashboard reads. -/
inductive Col
  | DE_solar_generation_actual
  | DE_wind_generation_actual
  | DE_wind_onshore_generation_actual
  | DE_wind_offshore_generation_actual
  | DE_load_actual_entsoe_transparency
  | DE_load_forecast_entsoe_transparency
  | DE_solar_capacity
  | DE_wind_capacity
  | DE_wind_onshore_capacity
  | DE_wind_offshore_capacity
deriving DecidableEq

/-- One record of the observation table: the timestamp, the calendar fields
the dashboard derives from it (`df['year']`, `df['month']`, `df['date']`),
and the numeric value of each column at this instant. -/
structure Row where
  utc_timestamp : Timestamp
  year : ℕ
  month : ℕ
  date : Date
  values : Col → ℚ

/-- Row order by timestamp, the key of `sort_values('utc_timestamp')`. -/
def RowLE (a b : Row) : Prop := Timestamp.le a.utc_timestamp b.utc_timestamp

instance : DecidableRel RowLE := fun _ _ =>
  inferInstanceAs (Decidable (Timestamp.le _ _))

instance : IsTotal Row RowLE :=
  ⟨fun a b => Timestamp.le_total a.utc_timestamp b.utc_timestamp⟩

instance : IsTrans Row RowLE :=
  ⟨fun _ _ _ h1 h2 => Timestamp.le_trans h1 h2⟩

/-- A DataFrame: which columns are present, and the rows. -/
structure Frame where
  cols : Col → Bool
  rows : List Row

/-- The Loader: `pd.read_csv(..., parse_dates=['utc_timestamp'])` followed by
`df.sort_values('utc_timestamp')` (lines 345-346 and again lines 53-54). -/
def loader (f : Frame) : Frame :=
  { f with rows := List.insertionSort RowLE f.rows }

/-- Re-derive the calendar fields of one row from its timestamp:
`df['year'] = ...dt.year`, `df['month'] = ...dt.month`, `df['date'] = ...dt.date`
(lines 57-59). -/
def preprocessRow (r : Row) : Row :=
  { r with year := r.utc_timestamp.year
           month := r.utc_timestamp.month
           date := dateOf r.utc_timestamp }

/-- The Preprocessor applied to the whole table. -/
def preprocess (f : Frame) : Frame :=
  { f with rows := f.rows.map preprocessRow }

/-- The values of column `c`, in row order. -/
def colVals (f : Frame) (c : Col) : List ℚ :=
  f.rows.map (fun r => r.values c)

/-- `df[c]`: raises `KeyError` (modelled as `Except.error`) when the column
is absent, otherwise the series of values. -/
def getCol (f : Frame) (c : Col) : Except Unit (List ℚ) :=
  if f.cols c then Except.ok (colVals f c) else Except.error ()

/-- Sum of a present column. -/
def sumCol (f : Frame) (c : Col) : ℚ := (colVals f c).sum

/-- Mean of a present column (as a rational; meaningful when rows ≠ []). -/
def meanCol (f : Frame) (c : Col) : ℚ := sumCol f c / (f.rows.length : ℚ)

/-- Maximum of a list of rationals (0 on the empty list, never used there). -/
def listMaxQ : List ℚ → ℚ
  | [] => 0
  | x :: xs => xs.foldl max x

/-- Maximum of a present column. -/
def maxCol (f : Frame) (c : Col) : ℚ := listMaxQ (colVals f c)

/-- `filtered_df = df.loc[(df['date'] >= start) & (df['date'] <= end)]`
(lines 80-81): keep the records whose derived date lies in the inclusive
range. -/
def inDateRange (s e : Date) (r : Row) : Bool :=
  decide (Date.le s r.date) && decide (Date.le r.date e)

def filterByDateRange (f : Frame) (s e : Date) : Frame :=
  { f with rows := f.rows.filter (inDateRange s e) }

/-- Lines 78-83: the date filter is applied only when the date-input widget
yields exactly two dates; otherwise `filtered_df = df`. -/
def applyDateSelection (f : Frame) (sel : List Date) : Frame :=
  match sel with
  | [s, e] => filterByDateRange f s e
  | _ => f

/-- Lines 205-208: `if selected_years: analysis_df = df[df['year'].isin(
selected_years)] else: analysis_df = df`.  The empty selection (falsy list)
keeps the whole table. -/
def filterByYears (f : Frame) (ys : List ℕ) : Frame :=
  if ys = [] then f
  else { f with rows := f.rows.filter (fun r => decide (r.year ∈ ys)) }

/-- A numpy float64 scalar: a finite rational, an infinity, or NaN.
numpy division of scalars never raises under the default error state:
`x / 0.0` warns and yields a signed infinity (NaN when `x = 0`). -/
inductive PFloat
  | fin (q : ℚ)
  | inf
  | ninf
  | nan
deriving DecidableEq

namespace PFloat

def add : PFloat → PFloat → PFloat
  | nan, _ => nan
  | _, nan => nan
  | fin a, fin b => fin (a + b)
  | inf, ninf => nan
  | ninf, inf => nan
  | inf, _ => inf
  | _, inf => inf
  | ninf, _ => ninf
  | _, ninf => ninf

def sub : PFloat → PFloat → PFloat
  | nan, _ => nan
  | _, nan => nan
  | fin a, fin b => fin (a - b)
  | inf, inf => nan
  | ninf, ninf => nan
  | inf, _ => inf
  | ninf, _ => ninf
  | fin _, inf => ninf
  | fin _, ninf => inf

def mul : PFloat → PFloat → PFloat
  | nan, _ => nan
  | _, nan => nan
  | fin a, fin b => fin (a * b)
  | inf, fin b => if 0 < b then inf else if b < 0 then ninf else nan
  | fin a, inf => if 0 < a then inf else if a < 0 then ninf else nan
  | ninf, fin b => if 0 < b then ninf else if b < 0 then inf else nan
  | fin a, ninf => if 0 < a then ninf else if a < 0 then inf else nan
  | inf, inf => inf
  | ninf, ninf => inf
  | inf, ninf => ninf
  | ninf, inf => ninf

def div : PFloat → PFloat → PFloat
  | nan, _ => nan
  | _, nan => nan
  | fin a, fin b =>
      if b = 0 then (if 0 < a then inf else if a < 0 then ninf else nan)
      else fin (a / b)
  | inf, fin b => if 0 ≤ b then inf else ninf
  | ninf, fin b => if 0 ≤ b then ninf else inf
  | fin _, inf => fin 0
  | fin _, ninf => fin 0
  | inf, inf => nan
  | inf, ninf => nan
  | ninf, inf => nan
  | ninf, ninf => nan

def isFinite : PFloat → Bool
  | fin _ => true
  | _ => false

end PFloat

/-- `Series.mean()` on a clean (NaN-free) column: NaN on the empty series,
otherwise the arithmetic mean. -/
def qmean (l : List ℚ) : PFloat :=
  if l = [] then PFloat.nan else PFloat.fin (l.sum / (l.length : ℚ))

/-- `Series.max()` on a clean column: NaN on the empty series, otherwise
the maximum. -/
def qmax : List ℚ → PFloat
  | [] => PFloat.nan
  | x :: xs => PFloat.fin (xs.foldl max x)

/-- `Series.mean()` on a series of float scalars: pandas skips NaN entries
(`skipna=True`), keeps infinities, and yields NaN when nothing remains. -/
def pmean (l : List PFloat) : PFloat :=
  match l.filter (fun v => decide (v ≠ PFloat.nan)) with
  | [] => PFloat.nan
  | l2 => (l2.foldr PFloat.add (PFloat.fin 0)).div (PFloat.fin (l2.length : ℚ))

/-- Elementwise numpy division of a rational numerator by a rational
denominator: a signed infinity (or NaN for 0/0) when the denominator is 0. -/
def pqdiv (x y : ℚ) : PFloat :=
  if y = 0 then
    (if 0 < x then PFloat.inf else if x < 0 then PFloat.ninf else PFloat.nan)
  else PFloat.fin (x / y)

/-- The outcome of one KPI block: the rendered value, or the `N/A` sentinel
produced by the `except:` branch. -/
inductive KpiOutcome
  | na
  | val (v : PFloat)
deriving DecidableEq

/-- Lines 100-112: `(mean(solar) + mean(wind)) / mean(load) * 100`, with the
bare `except:` turning a missing column (KeyError) into `N/A`. -/
def avg_renewable_share (f : Frame) : KpiOutcome :=
  match getCol f .DE_solar_generation_actual,
        getCol f .DE_wind_generation_actual,
        getCol f .DE_load_actual_entsoe_transparency with
  | .ok s, .ok w, .ok l =>
      .val ((((qmean s).add (qmean w)).div (qmean l)).mul (.fin 100))
  | _, _, _ => .na

/-- Lines 116-128: `mean(solar generation) / max(solar capacity) * 100`. -/
def solar_utilization (f : Frame) : KpiOutcome :=
  match getCol f .DE_solar_capacity, getCol f .DE_solar_generation_actual with
  | .ok cap, .ok gen => .val (((qmean gen).div (qmax cap)).mul (.fin 100))
  | _, _ => .na

/-- Lines 132-144: `max(offshore capacity) / max(wind capacity) * 100`. -/
def offshore_share (f : Frame) : KpiOutcome :=
  match getCol f .DE_wind_capacity, getCol f .DE_wind_offshore_capacity with
  | .ok wc, .ok oc => .val (((qmax oc).div (qmax wc)).mul (.fin 100))
  | _, _ => .na

/-- One row of the forecast-accuracy series: `1 - |actual - forecast| / actual`,
with numpy elementwise division semantics. -/
def rowForecastAccuracy (a fc : ℚ) : PFloat :=
  (PFloat.fin 1).sub (pqdiv |a - fc| a)

/-- Lines 148-161: `(1 - (abs(actual - forecast) / actual)).mean() * 100`. -/
def load_forecast_accuracy (f : Frame) : KpiOutcome :=
  match getCol f .DE_load_actual_entsoe_transparency,
        getCol f .DE_load_forecast_entsoe_transparency with
  | .ok a, .ok fc =>
      .val ((pmean ((a.zip fc).map (fun p => rowForecastAccuracy p.1 p.2))).mul
        (.fin 100))
  | _, _ => .na

/-- Bucket keys of a group-by: the distinct key values, in ascending order
(pandas `groupby` sorts its keys). -/
def groupKeys {κ : Type} [DecidableEq κ] (le : κ → κ → Prop) [DecidableRel le]
    (key : Row → κ) (rows : List Row) : List κ :=
  List.insertionSort le ((rows.map key).dedup)

/-- A group-by aggregation: one output row per distinct key, holding the
reduction of the rows that carry this key. -/
def groupAgg {κ V : Type} [DecidableEq κ] (le : κ → κ → Prop) [DecidableRel le]
    (key : Row → κ) (red : List Row → V) (rows : List Row) : List (κ × V) :=
  (groupKeys le key rows).map
    (fun k => (k, red (rows.filter (fun r => decide (key r = k)))))

/-- Values of column `c` over a list of rows. -/
def rowsVals (g : List Row) (c : Col) : List ℚ := g.map (fun r => r.values c)

/-- Lines 177-178: `filtered_df[['utc_timestamp'] + numeric_columns]
.resample('D', on='utc_timestamp').sum()` — bucket by the calendar day of the
timestamp and sum solar, wind and load.  A missing column raises (KeyError),
modelled by `Except.error`. -/
def dailySum (f : Frame) : Except Unit (List (Date × (ℚ × ℚ × ℚ))) :=
  if f.cols .DE_solar_generation_actual && f.cols .DE_wind_generation_actual
      && f.cols .DE_load_actual_entsoe_transparency then
    Except.ok (groupAgg Date.le (fun r => dateOf r.utc_timestamp)
      (fun g => ((rowsVals g .DE_solar_generation_actual).sum,
                 (rowsVals g .DE_wind_generation_actual).sum,
                 (rowsVals g .DE_load_actual_entsoe_transparency).sum))
      f.rows)
  else Except.error ()

/-- Lines 268-272: `filtered_df.groupby('month').agg({... 'mean' ...})` over
solar generation, wind generation and load. -/
def monthlyMean (f : Frame) : Except Unit (List (ℕ × (PFloat × PFloat × PFloat))) :=
  if f.cols .DE_solar_generation_actual && f.cols .DE_wind_generation_actual
      && f.cols .DE_load_actual_entsoe_transparency then
    Except.ok (groupAgg (· ≤ ·) (fun r => r.month)
      (fun g => (qmean (rowsVals g .DE_solar_generation_actual),
                 qmean (rowsVals g .DE_wind_generation_actual),
                 qmean (rowsVals g .DE_load_actual_entsoe_transparency)))
      f.rows)
  else Except.error ()

/-- Lines 210-213: `analysis_df.groupby('year').agg({... 'mean' ...})` over
onshore and offshore wind generation. -/
def yearlyWindMean (f : Frame) : Except Unit (List (ℕ × (PFloat × PFloat))) :=
  if f.cols .DE_wind_onshore_generation_actual
      && f.cols .DE_wind_offshore_generation_actual then
    Except.ok (groupAgg (· ≤ ·) (fun r => r.year)
      (fun g => (qmean (rowsVals g .DE_wind_onshore_generation_actual),
                 qmean (rowsVals g .DE_wind_offshore_generation_actual)))
      f.rows)
  else Except.error ()

/-- Lines 236-241: `analysis_df.groupby('year').agg({... 'max' ...})` over the
four capacity columns. -/
def yearlyCapacityMax (f : Frame) :
    Except Unit (List (ℕ × (PFloat × PFloat × PFloat × PFloat))) :=
  if f.cols .DE_solar_capacity && f.cols .DE_wind_capacity
      && f.cols .DE_wind_onshore_capacity && f.cols .DE_wind_offshore_capacity then
    Except.ok (groupAgg (· ≤ ·) (fun r => r.year)
      (fun g => (qmax (rowsVals g .DE_solar_capacity),
                 qmax (rowsVals g .DE_wind_capacity),
                 qmax (rowsVals g .DE_wind_onshore_capacity),
                 qmax (rowsVals g .DE_wind_offshore_capacity)))
      f.rows)
  else Except.error ()

/-- Pick the chronologically earlier of two timestamps. -/
def tsMin2 (a b : Timestamp) : Timestamp := if Timestamp.le a b then a else b

/-- Pick the chronologically later of two timestamps. -/
def tsMax2 (a b : Timestamp) : Timestamp := if Timestamp.le a b then b else a

/-- `Series.min()` over the timestamp column. -/
def listMinTs : List Timestamp → Option Timestamp
  | [] => none
  | t :: ts => some (ts.foldl tsMin2 t)

/-- `Series.max()` over the timestamp column. -/
def listMaxTs : List Timestamp → Option Timestamp
  | [] => none
  | t :: ts => some (ts.foldl tsMax2 t)

/-- Line 68: `min_date = df['utc_timestamp'].min().date()`. -/
def minDate (f : Frame) : Option Date :=
  (listMinTs (f.rows.map (fun r => r.utc_timestamp))).map dateOf

/-- Line 69: `max_date = df['utc_timestamp'].max().date()`. -/
def maxDate (f : Frame) : Option Date :=
  (listMaxTs (f.rows.map (fun r => r.utc_timestamp))).map dateOf

/-! Concrete fixtures, used by the witness and counterexample theorems. -/

def fixtureTs1 : Timestamp := ⟨2020, 1, 1, 0, 0⟩

def fixtureTs2 : Timestamp := ⟨2020, 1, 1, 0, 15⟩

/-- First row of the 2-row end-to-end fixture of the spec:
solar 10, wind 20, load 100, solar capacity 50, wind capacity 100,
offshore wind capacity 20. -/
def fixtureVals1 : Col → ℚ
  | .DE_solar_generation_actual => 10
  | .DE_wind_generation_actual => 20
  | .DE_load_actual_entsoe_transparency => 100
  | .DE_solar_capacity => 50
  | .DE_wind_capacity => 100
  | .DE_wind_offshore_capacity => 20
  | _ => 0

/-- Second row of the fixture: solar 20, wind 10, load 90. -/
def fixtureVals2 : Col → ℚ
  | .DE_solar_generation_actual => 20
  | .DE_wind_generation_actual => 10
  | .DE_load_actual_entsoe_transparency => 90
  | _ => 0

def fixtureRow1 : Row := ⟨fixtureTs1, 2020, 1, ⟨2020, 1, 1⟩, fixtureVals1⟩

def fixtureRow2 : Row := ⟨fixtureTs2, 2020, 1, ⟨2020, 1, 1⟩, fixtureVals2⟩

/-- The fixture has no forecast column (the spec fixture omits it). -/
def fixtureCols : Col → Bool :=
  fun c => decide (c ≠ Col.DE_load_forecast_entsoe_transparency)

/-- The 2-row end-to-end fixture of the spec. -/
def fixture2 : Frame := ⟨fixtureCols, [fixtureRow1, fixtureRow2]⟩

/-- A single-row view with solar sum 50, wind sum 30, load sum 0. -/
def zeroLoadVals : Col → ℚ
  | .DE_solar_generation_actual => 50
  | .DE_wind_generation_actual => 30
  | _ => 0

def zeroLoadRow : Row := ⟨fixtureTs1, 2020, 1, ⟨2020, 1, 1⟩, zeroLoadVals⟩

/-- All columns present; one row; the load column sums to 0. -/
def zeroLoadFrame : Frame := ⟨fun _ => true, [zeroLoadRow]⟩

/-- The fixture rows with the load column dropped. -/
def noLoadColFrame : Frame :=
  ⟨fun c => decide (c ≠ Col.DE_load_actual_entsoe_transparency),
   [fixtureRow1, fixtureRow2]⟩

/-- A row of year 2020 whose four capacity columns all hold `q`. -/
def capVals (q : ℚ) : Col → ℚ
  | .DE_solar_capacity => q
  | .DE_wind_capacity => q
  | .DE_wind_onshore_capacity => q
  | .DE_wind_offshore_capacity => q
  | _ => 0

def capRow (t : Timestamp) (q : ℚ) : Row := ⟨t, 2020, 1, dateOf t, capVals q⟩

/-- Four rows across one year with capacity values 100, 100, 150, 150. -/
def capFrame : Frame :=
  ⟨fun _ => true,
   [capRow ⟨2020, 1, 1, 0, 0⟩ 100, capRow ⟨2020, 3, 1, 0, 0⟩ 100,
    capRow ⟨2020, 6, 1, 0, 0⟩ 150, capRow ⟨2020, 9, 1, 0, 0⟩ 150]⟩

/-- The empty filtered view, all columns present. -/
def emptyFrame : Frame := ⟨fun _ => true, []⟩

/-! Helper lemmas. -/

theorem PFloat.add_fin (a b : ℚ) :
    (PFloat.fin a).add (PFloat.fin b) = PFloat.fin (a + b) := rfl

theorem PFloat.mul_fin (a b : ℚ) :
    (PFloat.fin a).mul (PFloat.fin b) = PFloat.fin (a * b) := rfl

theorem PFloat.div_fin (a b : ℚ) (hb : b ≠ 0) :
    (PFloat.fin a).div (PFloat.fin b) = PFloat.fin (a / b) := by
  simp [PFloat.div, hb]

theorem PFloat.div_fin_zero (a : ℚ) :
    (PFloat.fin a).div (PFloat.fin 0) =
      (if 0 < a then PFloat.inf else if a < 0 then PFloat.ninf else PFloat.nan) := by
  simp [PFloat.div]

theorem getCol_of_present {f : Frame} {c : Col} (h : f.cols c = true) :
    getCol f c = Except.ok (colVals f c) := by
  simp [getCol, h]

theorem getCol_of_absent {f : Frame} {c : Col} (h : f.cols c = false) :
    getCol f c = Except.error () := by
  simp [getCol, h]

theorem colVals_length (f : Frame) (c : Col) :
    (colVals f c).length = f.rows.length := by
  simp [colVals]

theorem colVals_ne_nil {f : Frame} (c : Col) (h : f.rows ≠ []) :
    colVals f c ≠ [] := by
  simpa [colVals] using h

theorem qmean_colVals {f : Frame} (c : Col) (h : f.rows ≠ []) :
    qmean (colVals f c) = PFloat.fin (meanCol f c) := by
  rw [qmean, if_neg (colVals_ne_nil c h), meanCol, sumCol, colVals_length]

theorem qmax_of_ne_nil {l : List ℚ} (h : l ≠ []) :
    qmax l = PFloat.fin (listMaxQ l) := by
  cases l with
  | nil => exact absurd rfl h
  | cons x xs => simp [qmax, listMaxQ]

theorem qmax_colVals {f : Frame} (c : Col) (h : f.rows ≠ []) :
    qmax (colVals f c) = PFloat.fin (maxCol f c) := by
  rw [qmax_of_ne_nil (colVals_ne_nil c h), maxCol]

theorem rows_length_cast_ne_zero {f : Frame} (h : f.rows ≠ []) :
    (f.rows.length : ℚ) ≠ 0 := by
  have : f.rows.length ≠ 0 := by
    simpa [List.length_eq_zero] using h
  exact_mod_cast this

theorem meanCol_ne_zero {f : Frame} {c : Col} (h : f.rows ≠ [])
    (hs : sumCol f c ≠ 0) : meanCol f c ≠ 0 :=
  div_ne_zero hs (rows_length_cast_ne_zero h)

/-- Evaluation of the renewable-share KPI when all columns are present, the
view is nonempty and the load mean is nonzero. -/
theorem avg_renewable_share_eval {f : Frame}
    (hs : f.cols .DE_solar_generation_actual = true)
    (hw : f.cols .DE_wind_generation_actual = true)
    (hl : f.cols .DE_load_actual_entsoe_transparency = true)
    (hne : f.rows ≠ [])
    (hml : meanCol f .DE_load_actual_entsoe_transparency ≠ 0) :
    avg_renewable_share f = .val (.fin
      ((meanCol f .DE_solar_generation_actual +
        meanCol f .DE_wind_generation_actual) /
        meanCol f .DE_load_actual_entsoe_transparency * 100)) := by
  rw [avg_renewable_share, getCol_of_present hs, getCol_of_present hw,
    getCol_of_present hl]
  dsimp only
  rw [qmean_colVals _ hne, qmean_colVals _ hne, qmean_colVals _ hne,
    PFloat.add_fin, PFloat.div_fin _ _ hml, PFloat.mul_fin]

/-- Evaluation of the solar-utilization KPI when its columns are present, the
view is nonempty and the capacity maximum is nonzero. -/
theorem solar_utilization_eval {f : Frame}
    (hc : f.cols .DE_solar_capacity = true)
    (hs : f.cols .DE_solar_generation_actual = true)
    (hne : f.rows ≠ [])
    (hmax : maxCol f .DE_solar_capacity ≠ 0) :
    solar_utilization f = .val (.fin
      (meanCol f .DE_solar_generation_actual / maxCol f .DE_solar_capacity
        * 100)) := by
  rw [solar_utilization, getCol_of_present hc, getCol_of_present hs]
  dsimp only
  rw [qmean_colVals _ hne, qmax_colVals _ hne, PFloat.div_fin _ _ hmax,
    PFloat.mul_fin]

/-- Evaluation of the offshore-share KPI when its columns are present, the
view is nonempty and the total wind-capacity maximum is nonzero. -/
theorem offshore_share_eval {f : Frame}
    (hwc : f.cols .DE_wind_capacity = true)
    (hoc : f.cols .DE_wind_offshore_capacity = true)
    (hne : f.rows ≠ [])
    (hmax : maxCol f .DE_wind_capacity ≠ 0) :
    offshore_share f = .val (.fin
      (maxCol f .DE_wind_offshore_capacity / maxCol f .DE_wind_capacity
        * 100)) := by
  rw [offshore_share, getCol_of_present hwc, getCol_of_present hoc]
  dsimp only
  rw [qmax_colVals _ hne, qmax_colVals _ hne, PFloat.div_fin _ _ hmax,
    PFloat.mul_fin]

/-- The forecast-accuracy KPI degrades to `N/A` when the forecast column is
absent: accessing it raises, and the `except:` branch renders the sentinel. -/
theorem load_forecast_accuracy_na {f : Frame}
    (h : f.cols .DE_load_forecast_entsoe_transparency = false) :
    load_forecast_accuracy f = .na := by
  rw [load_forecast_accuracy, getCol_of_absent h]
  cases getCol f .DE_load_actual_entsoe_transparency <;> rfl

/-! Claim theorems. -/

/-- Claim C4: filtering by year membership with an empty set of selected
years returns the entire unfiltered table, row for row — not an empty view. -/
theorem filterByYears_empty_keeps_table (f : Frame) : filterByYears f [] = f := by
  simp [filterByYears]

/-- Claim C5: the date-range filter returns exactly the records whose date
lies in the inclusive interval [start, end]; when start > end it returns a
view with zero rows, not an error. -/
theorem filterByDateRange_spec (f : Frame) (s e : Date) :
    (∀ r, r ∈ (filterByDateRange f s e).rows ↔
      r ∈ f.rows ∧ Date.le s r.date ∧ Date.le r.date e) ∧
    (Date.lt e s → (filterByDateRange f s e).rows = []) := by
  constructor
  · intro r
    simp [filterByDateRange, inDateRange, List.mem_filter, and_assoc]
  · intro hlt
    rw [filterByDateRange]
    rw [List.filter_eq_nil_iff]
    intro r _
    have := Date.not_between_of_lt (d := r.date) hlt
    simp [inDateRange]
    tauto

/-- Witness for C5 at a concrete reversed range: start 2021-01-01 is after
end 2020-01-01, and the filtered view of the 2-row fixture has zero rows. -/
theorem filterByDateRange_spec_witness :
    (filterByDateRange fixture2 ⟨2021, 1, 1⟩ ⟨2020, 1, 1⟩).rows = [] :=
  (filterByDateRange_spec fixture2 ⟨2021, 1, 1⟩ ⟨2020, 1, 1⟩).2 (by decide)

/-- Claim C7: the table produced by the Loader is sorted non-decreasing by
timestamp, whatever the row order of the input, and holds exactly the input
rows. -/
theorem loader_sorted (f : Frame) :
    List.Sorted RowLE (loader f).rows ∧ List.Perm (loader f).rows f.rows :=
  ⟨List.sorted_insertionSort RowLE f.rows, List.perm_insertionSort RowLE f.rows⟩

/-- Claim C8: the Preprocessor is idempotent — re-deriving year, month and
date changes nothing — and the derived fields of every preprocessed row are
the pure projections of its timestamp. -/
theorem preprocess_idempotent (f : Frame) :
    preprocess (preprocess f) = preprocess f ∧
    ∀ r ∈ (preprocess f).rows,
      r.year = r.utc_timestamp.year ∧ r.month = r.utc_timestamp.month ∧
        r.date = dateOf r.utc_timestamp := by
  constructor
  · have hpp : preprocessRow ∘ preprocessRow = preprocessRow :=
      funext fun r => rfl
    cases f with
    | mk cols rows => simp [preprocess, List.map_map, hpp]
  · intro r hr
    rw [preprocess] at hr
    simp only [List.mem_map] at hr
    obtain ⟨s, _, rfl⟩ := hr
    exact ⟨rfl, rfl, rfl⟩

/-- Witness for C8: the fixture table, and the derived fields of its first
preprocessed row. -/
theorem preprocess_idempotent_witness :
    preprocess (preprocess fixture2) = preprocess fixture2 ∧
    ((preprocessRow fixtureRow1).year =
        (preprocessRow fixtureRow1).utc_timestamp.year ∧
      (preprocessRow fixtureRow1).month =
        (preprocessRow fixtureRow1).utc_timestamp.month ∧
      (preprocessRow fixtureRow1).date =
        dateOf (preprocessRow fixtureRow1).utc_timestamp) :=
  ⟨(preprocess_idempotent fixture2).1,
   (preprocess_idempotent fixture2).2 (preprocessRow fixtureRow1)
     (by simp [preprocess, fixture2])⟩

/-- Claim C3: on a nonempty filtered view with the three columns present and
a nonzero load sum, the renewable-share KPI equals
(sum solar + sum wind) / sum load x 100.  The code divides means, but the
three columns of one view have the same row count, so the mean ratio and the
sum ratio coincide. -/
theorem avg_renewable_share_sum_formula (f : Frame)
    (hs : f.cols .DE_solar_generation_actual = true)
    (hw : f.cols .DE_wind_generation_actual = true)
    (hl : f.cols .DE_load_actual_entsoe_transparency = true)
    (hne : f.rows ≠ [])
    (hload : sumCol f .DE_load_actual_entsoe_transparency ≠ 0) :
    avg_renewable_share f = .val (.fin
      ((sumCol f .DE_solar_generation_actual +
        sumCol f .DE_wind_generation_actual) /
        sumCol f .DE_load_actual_entsoe_transparency * 100)) := by
  rw [avg_renewable_share_eval hs hw hl hne (meanCol_ne_zero hne hload)]
  have hn := rows_length_cast_ne_zero hne
  congr 1
  congr 1
  rw [meanCol, meanCol, meanCol]
  field_simp

/-- Witness for C3: on the 2-row fixture with solar [10, 20], wind [20, 10]
and load [100, 90], the KPI is (30 + 30) / 190 x 100 = 600/19 (about 31.6). -/
theorem avg_renewable_share_sum_formula_witness :
    avg_renewable_share fixture2 = .val (.fin (600 / 19)) := by
  have h := avg_renewable_share_sum_formula fixture2 rfl rfl rfl
    (by simp [fixture2]) (by norm_num [sumCol, colVals, fixture2, fixtureRow1,
      fixtureRow2, fixtureVals1, fixtureVals2])
  rw [h]
  norm_num [sumCol, colVals, fixture2, fixtureRow1, fixtureRow2, fixtureVals1,
    fixtureVals2]

/-- Claim C2: on a view lacking the load-forecast column but with the other
required columns present (nonempty, with nonzero load sum and nonzero
capacity maxima), the forecast-accuracy KPI degrades to N/A while the other
three KPIs still yield their normal numeric values. -/
theorem kpi_isolation_missing_forecast (f : Frame)
    (hfc : f.cols .DE_load_forecast_entsoe_transparency = false)
    (hs : f.cols .DE_solar_generation_actual = true)
    (hw : f.cols .DE_wind_generation_actual = true)
    (hl : f.cols .DE_load_actual_entsoe_transparency = true)
    (hsc : f.cols .DE_solar_capacity = true)
    (hwc : f.cols .DE_wind_capacity = true)
    (hoc : f.cols .DE_wind_offshore_capacity = true)
    (hne : f.rows ≠ [])
    (hload : sumCol f .DE_load_actual_entsoe_transparency ≠ 0)
    (hmaxs : maxCol f .DE_solar_capacity ≠ 0)
    (hmaxw : maxCol f .DE_wind_capacity ≠ 0) :
    load_forecast_accuracy f = .na ∧
    avg_renewable_share f = .val (.fin
      ((meanCol f .DE_solar_generation_actual +
        meanCol f .DE_wind_generation_actual) /
        meanCol f .DE_load_actual_entsoe_transparency * 100)) ∧
    solar_utilization f = .val (.fin
      (meanCol f .DE_solar_generation_actual / maxCol f .DE_solar_capacity
        * 100)) ∧
    offshore_share f = .val (.fin
      (maxCol f .DE_wind_offshore_capacity / maxCol f .DE_wind_capacity
        * 100)) :=
  ⟨load_forecast_accuracy_na hfc,
   avg_renewable_share_eval hs hw hl hne (meanCol_ne_zero hne hload),
   solar_utilization_eval hsc hs hne hmaxs,
   offshore_share_eval hwc hoc hne hmaxw⟩

/-- Witness for C2 at the 2-row fixture, whose forecast column is absent:
the forecast KPI is N/A and the other three KPIs are finite numbers. -/
theorem kpi_isolation_missing_forecast_witness :
    load_forecast_accuracy fixture2 = .na ∧
    avg_renewable_share fixture2 = .val (.fin ((15 + 15) / 95 * 100)) ∧
    solar_utilization fixture2 = .val (.fin (15 / 50 * 100)) ∧
    offshore_share fixture2 = .val (.fin (20 / 100 * 100)) := by
  have h := kpi_isolation_missing_forecast fixture2 rfl rfl rfl rfl rfl rfl rfl
    (by simp [fixture2])
    (by norm_num [sumCol, colVals, fixture2, fixtureRow1, fixtureRow2,
      fixtureVals1, fixtureVals2])
    (by norm_num [maxCol, listMaxQ, colVals, fixture2, fixtureRow1,
      fixtureRow2, fixtureVals1, fixtureVals2])
    (by norm_num [maxCol, listMaxQ, colVals, fixture2, fixtureRow1,
      fixtureRow2, fixtureVals1, fixtureVals2])
  refine ⟨h.1, ?_, ?_, ?_⟩
  · rw [h.2.1]
    norm_num [meanCol, sumCol, colVals, fixture2, fixtureRow1, fixtureRow2,
      fixtureVals1, fixtureVals2]
  · rw [h.2.2.1]
    norm_num [meanCol, sumCol, maxCol, listMaxQ, colVals, fixture2,
      fixtureRow1, fixtureRow2, fixtureVals1, fixtureVals2]
  · rw [h.2.2.2]
    norm_num [maxCol, listMaxQ, colVals, fixture2, fixtureRow1, fixtureRow2,
      fixtureVals1, fixtureVals2]

/-- Counterexample to C1 as stated: on the one-row view with solar sum 50,
wind sum 30 and load sum 0 (load column present), the renewable-share KPI
does not yield the N/A sentinel — numpy division by zero produces infinity,
which is rendered. -/
theorem avg_renewable_share_zero_load_not_na :
    avg_renewable_share zeroLoadFrame = .val PFloat.inf ∧
    KpiOutcome.val PFloat.inf ≠ KpiOutcome.na := by
  constructor
  · rw [avg_renewable_share, getCol_of_present rfl, getCol_of_present rfl,
      getCol_of_present rfl]
    dsimp only
    have hne : zeroLoadFrame.rows ≠ [] := by simp [zeroLoadFrame]
    rw [qmean_colVals _ hne, qmean_colVals _ hne, qmean_colVals _ hne,
      PFloat.add_fin]
    have hsum : meanCol zeroLoadFrame .DE_solar_generation_actual +
        meanCol zeroLoadFrame .DE_wind_generation_actual = 80 := by
      norm_num [meanCol, sumCol, colVals, zeroLoadFrame, zeroLoadRow,
        zeroLoadVals]
    have hzero : meanCol zeroLoadFrame .DE_load_actual_entsoe_transparency
        = 0 := by
      norm_num [meanCol, sumCol, colVals, zeroLoadFrame, zeroLoadRow,
        zeroLoadVals]
    rw [hsum, hzero, PFloat.div_fin_zero]
    norm_num
    rfl
  · simp

/-- Claim C1 as amended: a missing load column degrades the KPI to N/A
without an exception; but a present load column summing to 0 over a nonempty
view yields a rendered non-finite value (infinity or NaN), not N/A. -/
theorem avg_renewable_share_degradation (f : Frame) :
    (f.cols .DE_load_actual_entsoe_transparency = false →
      avg_renewable_share f = .na) ∧
    (f.cols .DE_solar_generation_actual = true →
      f.cols .DE_wind_generation_actual = true →
      f.cols .DE_load_actual_entsoe_transparency = true →
      f.rows ≠ [] →
      sumCol f .DE_load_actual_entsoe_transparency = 0 →
      ∃ v, avg_renewable_share f = .val v ∧ v.isFinite = false) := by
  constructor
  · intro h
    rw [avg_renewable_share, getCol_of_absent h]
    cases getCol f .DE_solar_generation_actual <;>
      cases getCol f .DE_wind_generation_actual <;> rfl
  · intro hs hw hl hne hzero
    rw [avg_renewable_share, getCol_of_present hs, getCol_of_present hw,
      getCol_of_present hl]
    dsimp only
    rw [qmean_colVals _ hne, qmean_colVals _ hne, qmean_colVals _ hne,
      PFloat.add_fin]
    have hml : meanCol f .DE_load_actual_entsoe_transparency = 0 := by
      rw [meanCol, hzero, zero_div]
    rw [hml, PFloat.div_fin_zero]
    rcases lt_trichotomy (meanCol f .DE_solar_generation_actual +
        meanCol f .DE_wind_generation_actual) 0 with hlt | heq | hgt
    · refine ⟨PFloat.ninf, ?_, rfl⟩
      rw [if_neg (by linarith), if_pos hlt]
      rfl
    · refine ⟨PFloat.nan, ?_, rfl⟩
      rw [if_neg (by linarith), if_neg (by linarith)]
      rfl
    · refine ⟨PFloat.inf, ?_, rfl⟩
      rw [if_pos hgt]
      rfl

/-- Witness for the amended C1: the zero-load frame yields a non-finite
rendered value, and dropping the load column yields N/A. -/
theorem avg_renewable_share_degradation_witness :
    (∃ v, avg_renewable_share zeroLoadFrame = .val v ∧ v.isFinite = false) ∧
    avg_renewable_share noLoadColFrame = .na :=
  ⟨(avg_renewable_share_degradation zeroLoadFrame).2 rfl rfl rfl
      (by simp [zeroLoadFrame])
      (by norm_num [sumCol, colVals, zeroLoadFrame, zeroLoadRow,
        zeroLoadVals]),
   (avg_renewable_share_degradation noLoadColFrame).1 rfl⟩

/-- Claim C6: on the empty filtered view with the aggregated columns
present, the daily resample-sum, the monthly group-by mean and the yearly
group-by aggregations each return an empty aggregate table and no error. -/
theorem empty_view_aggregations (f : Frame) (hrows : f.rows = [])
    (h1 : f.cols .DE_solar_generation_actual = true)
    (h2 : f.cols .DE_wind_generation_actual = true)
    (h3 : f.cols .DE_load_actual_entsoe_transparency = true)
    (h4 : f.cols .DE_wind_onshore_generation_actual = true)
    (h5 : f.cols .DE_wind_offshore_generation_actual = true)
    (h6 : f.cols .DE_solar_capacity = true)
    (h7 : f.cols .DE_wind_capacity = true)
    (h8 : f.cols .DE_wind_onshore_capacity = true)
    (h9 : f.cols .DE_wind_offshore_capacity = true) :
    dailySum f = .ok [] ∧ monthlyMean f = .ok [] ∧
    yearlyWindMean f = .ok [] ∧ yearlyCapacityMax f = .ok [] := by
  refine ⟨?_, ?_, ?_, ?_⟩ <;>
    simp [dailySum, monthlyMean, yearlyWindMean, yearlyCapacityMax,
      h1, h2, h3, h4, h5, h6, h7, h8, h9, hrows, groupAgg, groupKeys]

/-- Witness for C6: the concrete empty frame with all columns present. -/
theorem empty_view_aggregations_witness :
    dailySum emptyFrame = .ok [] ∧ monthlyMean emptyFrame = .ok [] ∧
    yearlyWindMean emptyFrame = .ok [] ∧
    yearlyCapacityMax emptyFrame = .ok [] :=
  empty_view_aggregations emptyFrame rfl rfl rfl rfl rfl rfl rfl rfl rfl rfl

/-- The rows of year `y`, as `groupby('year')` groups them. -/
def yearGroup (f : Frame) (y : ℕ) : List Row :=
  f.rows.filter (fun r => decide (r.year = y))

theorem lookup_map_self {κ V : Type} [BEq κ] [LawfulBEq κ] (g : κ → V)
    (k : κ) (ks : List κ) (hk : k ∈ ks) :
    (ks.map (fun x => (x, g x))).lookup k = some (g k) := by
  induction ks with
  | nil => cases hk
  | cons a t ih =>
    rw [List.map_cons]
    by_cases h : k = a
    · subst h
      simp [List.lookup]
    · have hne : (k == a) = false := beq_eq_false_iff_ne.mpr h
      rcases List.mem_cons.mp hk with h1 | h1
      · exact absurd h1 h
      · simp only [List.lookup, hne]
        exact ih h1

/-- Claim C9: the yearly aggregation applies the max reducer to every
capacity field; in particular a year whose solar-capacity values are
[100, 100, 150, 150] aggregates to 150, not the mean 125. -/
theorem yearly_capacity_max_reducer (f : Frame) (y : ℕ)
    (h6 : f.cols .DE_solar_capacity = true)
    (h7 : f.cols .DE_wind_capacity = true)
    (h8 : f.cols .DE_wind_onshore_capacity = true)
    (h9 : f.cols .DE_wind_offshore_capacity = true)
    (hvals : rowsVals (yearGroup f y) .DE_solar_capacity
      = [100, 100, 150, 150]) :
    ∃ t, yearlyCapacityMax f = .ok t ∧
      t.lookup y = some
        (qmax (rowsVals (yearGroup f y) .DE_solar_capacity),
         qmax (rowsVals (yearGroup f y) .DE_wind_capacity),
         qmax (rowsVals (yearGroup f y) .DE_wind_onshore_capacity),
         qmax (rowsVals (yearGroup f y) .DE_wind_offshore_capacity)) ∧
      qmax (rowsVals (yearGroup f y) .DE_solar_capacity)
        = .fin 150 := by
  rw [yearlyCapacityMax, if_pos (by simp [h6, h7, h8, h9])]
  refine ⟨_, rfl, ?_, ?_⟩
  · have hgr : yearGroup f y ≠ [] := by
      intro h0
      rw [rowsVals, h0] at hvals
      cases hvals
    obtain ⟨r, hr⟩ := List.exists_mem_of_ne_nil _ hgr
    have hmem := List.mem_filter.mp hr
    have hy : y ∈ groupKeys (· ≤ ·) (fun r => r.year) f.rows := by
      rw [groupKeys]
      refine (List.perm_insertionSort _ _).mem_iff.mpr ?_
      refine List.mem_dedup.mpr ?_
      refine List.mem_map.mpr ⟨r, hmem.1, ?_⟩
      exact of_decide_eq_true hmem.2
    exact lookup_map_self _ y _ hy
  · rw [hvals]
    decide

/-- Witness for C9: the concrete four-row frame of one year whose capacity
columns hold 100, 100, 150, 150. -/
theorem yearly_capacity_max_reducer_witness :
    ∃ t, yearlyCapacityMax capFrame = .ok t ∧
      t.lookup 2020 = some
        (qmax (rowsVals (yearGroup capFrame 2020) .DE_solar_capacity),
         qmax (rowsVals (yearGroup capFrame 2020) .DE_wind_capacity),
         qmax (rowsVals (yearGroup capFrame 2020) .DE_wind_onshore_capacity),
         qmax (rowsVals (yearGroup capFrame 2020) .DE_wind_offshore_capacity))
      ∧ qmax (rowsVals (yearGroup capFrame 2020) .DE_solar_capacity)
        = .fin 150 :=
  yearly_capacity_max_reducer capFrame 2020 rfl rfl rfl rfl (by decide)

theorem foldl_tsMin2_le (l : List Timestamp) :
    ∀ a : Timestamp, Timestamp.le (l.foldl tsMin2 a) a ∧
      ∀ t ∈ l, Timestamp.le (l.foldl tsMin2 a) t := by
  induction l with
  | nil =>
    intro a
    exact ⟨Timestamp.le_refl a, by simp⟩
  | cons b l ih =>
    intro a
    have hmina : Timestamp.le (tsMin2 a b) a := by
      rw [tsMin2]
      split
      · exact Timestamp.le_refl a
      · next h =>
          rcases Timestamp.le_total a b with h1 | h1
          · exact absurd h1 h
          · exact h1
    have hminb : Timestamp.le (tsMin2 a b) b := by
      rw [tsMin2]
      split
      · next h => exact h
      · exact Timestamp.le_refl b
    simp only [List.foldl_cons]
    refine ⟨Timestamp.le_trans (ih (tsMin2 a b)).1 hmina, ?_⟩
    intro t ht
    rcases List.mem_cons.mp ht with rfl | ht2
    · exact Timestamp.le_trans (ih _).1 hminb
    · exact (ih _).2 t ht2

theorem foldl_tsMax2_ge (l : List Timestamp) :
    ∀ a : Timestamp, Timestamp.le a (l.foldl tsMax2 a) ∧
      ∀ t ∈ l, Timestamp.le t (l.foldl tsMax2 a) := by
  induction l with
  | nil =>
    intro a
    exact ⟨Timestamp.le_refl a, by simp⟩
  | cons b l ih =>
    intro a
    have hmaxa : Timestamp.le a (tsMax2 a b) := by
      rw [tsMax2]
      split
      · next h => exact h
      · exact Timestamp.le_refl a
    have hmaxb : Timestamp.le b (tsMax2 a b) := by
      rw [tsMax2]
      split
      · exact Timestamp.le_refl b
      · next h =>
          rcases Timestamp.le_total a b with h1 | h1
          · exact absurd h1 h
          · exact h1
    simp only [List.foldl_cons]
    refine ⟨Timestamp.le_trans hmaxa (ih (tsMax2 a b)).1, ?_⟩
    intro t ht
    rcases List.mem_cons.mp ht with rfl | ht2
    · exact Timestamp.le_trans hmaxb (ih _).1
    · exact (ih _).2 t ht2

theorem minDate_le {f : Frame} {a : Date} (h : minDate f = some a) :
    ∀ r ∈ f.rows, Date.le a (dateOf r.utc_timestamp) := by
  intro r hr
  rw [minDate] at h
  cases hrow : f.rows with
  | nil => rw [hrow] at hr; cases hr
  | cons r0 rest =>
    rw [hrow] at h hr
    simp only [List.map_cons, listMinTs, Option.map_some] at h
    have ha : a = dateOf ((rest.map (fun r => r.utc_timestamp)).foldl tsMin2
        r0.utc_timestamp) := (Option.some.inj h).symm
    subst ha
    rcases List.mem_cons.mp hr with rfl | hr2
    · exact dateOf_mono (foldl_tsMin2_le _ _).1
    · exact dateOf_mono ((foldl_tsMin2_le _ _).2 _
        (List.mem_map_of_mem _ hr2))

theorem maxDate_ge {f : Frame} {b : Date} (h : maxDate f = some b) :
    ∀ r ∈ f.rows, Date.le (dateOf r.utc_timestamp) b := by
  intro r hr
  rw [maxDate] at h
  cases hrow : f.rows with
  | nil => rw [hrow] at hr; cases hr
  | cons r0 rest =>
    rw [hrow] at h hr
    simp only [List.map_cons, listMaxTs, Option.map_some] at h
    have hb : b = dateOf ((rest.map (fun r => r.utc_timestamp)).foldl tsMax2
        r0.utc_timestamp) := (Option.some.inj h).symm
    subst hb
    rcases List.mem_cons.mp hr with rfl | hr2
    · exact dateOf_mono (foldl_tsMax2_ge _ _).1
    · exact dateOf_mono ((foldl_tsMax2_ge _ _).2 _
        (List.mem_map_of_mem _ hr2))

/-- Claim C10: when the date widget yields fewer than two dates, the date
filter is skipped — the view is the full preprocessed table, the same view
that selecting the complete data range [min date, max date] produces — and
the KPIs and aggregations are computed over that full table. -/
theorem incomplete_date_selection (f : Frame) (sel : List Date)
    (hsel : sel.length < 2)
    (hpre : ∀ r ∈ f.rows, r.date = dateOf r.utc_timestamp) :
    applyDateSelection f sel = f ∧
    (∀ a b, minDate f = some a → maxDate f = some b →
      applyDateSelection f [a, b] = f) ∧
    avg_renewable_share (applyDateSelection f sel) = avg_renewable_share f ∧
    dailySum (applyDateSelection f sel) = dailySum f := by
  have h1 : applyDateSelection f sel = f := by
    cases sel with
    | nil => rfl
    | cons a t =>
      cases t with
      | nil => rfl
      | cons b u =>
        simp only [List.length_cons] at hsel
        omega
  refine ⟨h1, ?_, by rw [h1], by rw [h1]⟩
  intro a b ha hb
  show filterByDateRange f a b = f
  rw [filterByDateRange]
  have hall : f.rows.filter (inDateRange a b) = f.rows := by
    rw [List.filter_eq_self]
    intro r hr
    have h2 := minDate_le ha r hr
    have h3 := maxDate_ge hb r hr
    simp only [inDateRange, Bool.and_eq_true, decide_eq_true_eq]
    rw [hpre r hr]
    exact ⟨h2, h3⟩
  rw [hall]

/-- Witness for C10: the empty selection on the fixture yields the full
table, as does the full range [2020-01-01, 2020-01-01]. -/
theorem incomplete_date_selection_witness :
    applyDateSelection fixture2 [] = fixture2 ∧
    applyDateSelection fixture2 [⟨2020, 1, 1⟩, ⟨2020, 1, 1⟩] = fixture2 := by
  have h := incomplete_date_selection fixture2 [] (by decide) (by decide)
  exact ⟨h.1, h.2.1 ⟨2020, 1, 1⟩ ⟨2020, 1, 1⟩ (by decide) (by decide)⟩

end Energy
